import Mathlib

/-!
Shallow embedding of the robinson block layout engine (`src/layout.rs`).

Pixel quantities (`f32` in the source) are modelled as exact rationals `ℚ`;
the two `fail!` aborts (root with display none, style of an inline container)
are modelled as `Option`.
-/

namespace Robinson

/-- Value model from `css.rs` (external collaborator of `layout.rs`):
`Keyword(string)` or `Length(number, Px)`; `Px` is the only unit consumed by
layout, so the unit argument is dropped. -/
inductive Value where
  | keyword : String → Value
  | length : ℚ → Value
  deriving DecidableEq

/-- `to_px` from `css.rs`: a pixel length yields its magnitude, anything else 0. -/
def Value.to_px : Value → ℚ
  | Value.length f => f
  | Value.keyword _ => 0

/-- The display classification from `style.rs`. -/
inductive Display where
  | block
  | inline
  | none
  deriving DecidableEq

/-- Modelled from the spec: the external styled-node interface of section 6 -
a display classification, a resolved property map, and an ordered sequence of
styled children (`style.rs` is not part of the sources under verification). -/
inductive StyledNode where
  | mk : List (String × Value) → Display → List StyledNode → StyledNode

def StyledNode.specified_values : StyledNode → List (String × Value)
  | StyledNode.mk sv _ _ => sv

def StyledNode.display : StyledNode → Display
  | StyledNode.mk _ d _ => d

def StyledNode.children : StyledNode → List StyledNode
  | StyledNode.mk _ _ cs => cs

/-- First-match association lookup, modelling the property map of a styled
node. -/
def find_value : List (String × Value) → String → Option Value
  | [], _ => Option.none
  | (k, v) :: rest, name => if k = name then some v else find_value rest name

/-- Modelled from the spec: `value(property_name)` returns the resolved value
of the property when present. -/
def StyledNode.value (s : StyledNode) (name : String) : Option Value :=
  find_value s.specified_values name

/-- Modelled from the spec (section 4.5): return the specific property when
present, else the shorthand property when present, else the supplied default. -/
def StyledNode.lookup (s : StyledNode) (name fallback_name : String) (default : Value) : Value :=
  ((s.value name).orElse (fun _ => s.value fallback_name)).getD default

/-- `EdgeSizes` of `layout.rs`. -/
structure EdgeSizes where
  left : ℚ
  right : ℚ
  top : ℚ
  bottom : ℚ
  deriving DecidableEq

/-- The derived `Default` of `EdgeSizes`: all edges zero. -/
def EdgeSizes.default : EdgeSizes :=
  { left := 0, right := 0, top := 0, bottom := 0 }

/-- `Dimensions` of `layout.rs`: content-area origin and size plus the three
edge records. -/
structure Dimensions where
  x : ℚ
  y : ℚ
  width : ℚ
  height : ℚ
  padding : EdgeSizes
  border : EdgeSizes
  margin : EdgeSizes
  deriving DecidableEq

/-- The derived `Default` of `Dimensions`: everything zero. -/
def Dimensions.default : Dimensions :=
  { x := 0, y := 0, width := 0, height := 0
    padding := EdgeSizes.default, border := EdgeSizes.default, margin := EdgeSizes.default }

/-- `margin_box_height` of `layout.rs` lines 246-253. -/
def Dimensions.margin_box_height (d : Dimensions) : ℚ :=
  d.height + d.padding.top + d.padding.bottom
           + d.border.top + d.border.bottom
           + d.margin.top + d.margin.bottom

/-- `BoxType` of `layout.rs`: the borrowed styled node is held by value. -/
inductive BoxType where
  | blockNode : StyledNode → BoxType
  | inlineNode : StyledNode → BoxType
  | inlineContainer : BoxType

/-- `LayoutBox` of `layout.rs`. -/
inductive LayoutBox where
  | mk : BoxType → Dimensions → List LayoutBox → LayoutBox

def LayoutBox.box_type : LayoutBox → BoxType
  | LayoutBox.mk bt _ _ => bt

def LayoutBox.dimensions : LayoutBox → Dimensions
  | LayoutBox.mk _ d _ => d

def LayoutBox.children : LayoutBox → List LayoutBox
  | LayoutBox.mk _ _ cs => cs

/-- `LayoutBox::new`: default dimensions, no children. -/
def LayoutBox.new (bt : BoxType) : LayoutBox :=
  LayoutBox.mk bt Dimensions.default []

/-- `LayoutBox::style` (lines 49-55): the `fail!` on `InlineContainer` is
modelled as `none`. -/
def LayoutBox.style : LayoutBox → Option StyledNode
  | LayoutBox.mk (BoxType.blockNode s) _ _ => some s
  | LayoutBox.mk (BoxType.inlineNode s) _ _ => some s
  | LayoutBox.mk BoxType.inlineContainer _ _ => Option.none

/-- `push_block` (lines 237-239): append the child. -/
def LayoutBox.push_block (b child : LayoutBox) : LayoutBox :=
  LayoutBox.mk b.box_type b.dimensions (b.children ++ [child])

/-- `push_inline` (lines 241-243): the body is a TODO comment, so the child is
discarded and the box is returned unchanged. -/
def LayoutBox.push_inline (b _child : LayoutBox) : LayoutBox :=
  b

mutual

/-- `build_layout_tree` (lines 69-84) for a node already known displayable:
create the box for the given type and push the children.  The root-level
display dispatch (and its `fail!`) lives in `build_layout_tree` below. -/
def build_non_none : StyledNode → BoxType → LayoutBox
  | StyledNode.mk _ _ cs, bt => build_children cs (LayoutBox.new bt)

/-- The child loop of `build_layout_tree` (lines 76-82): block children go
through `push_block`, inline children through `push_inline`, display-none
children are skipped. -/
def build_children : List StyledNode → LayoutBox → LayoutBox
  | [], root => root
  | c :: rest, root =>
    match c.display with
    | Display.block =>
        build_children rest (root.push_block (build_non_none c (BoxType.blockNode c)))
    | Display.inline =>
        build_children rest (root.push_inline (build_non_none c (BoxType.inlineNode c)))
    | Display.none => build_children rest root

end

/-- `build_layout_tree` (lines 69-84): dispatch on the display of the root;
the `fail!("Root node has display: none.")` is modelled as `none`. -/
def build_layout_tree (node : StyledNode) : Option LayoutBox :=
  match node.display with
  | Display.block => some (build_non_none node (BoxType.blockNode node))
  | Display.inline => some (build_non_none node (BoxType.inlineNode node))
  | Display.none => Option.none

/-- The `auto` keyword of `calculate_block_width` line 116. -/
def auto : Value := Value.keyword "auto"

/-- The `zero` default length of `calculate_block_width` line 120. -/
def zeroLen : Value := Value.length 0

/-- Line 117: `width` has initial value `auto`. -/
def specified_width (style : StyledNode) : Value :=
  (style.value "width").getD auto

/-- Lines 131-132: the sum of the pixel values of the seven horizontal
quantities, the `auto` keyword counting as 0 through `to_px`. -/
def width_total (style : StyledNode) : ℚ :=
  (style.lookup "margin-left" "margin" zeroLen).to_px
    + (style.lookup "margin-right" "margin" zeroLen).to_px
    + (style.lookup "border-left-width" "border-width" zeroLen).to_px
    + (style.lookup "border-right-width" "border-width" zeroLen).to_px
    + (style.lookup "padding-left" "padding" zeroLen).to_px
    + (style.lookup "padding-right" "padding" zeroLen).to_px
    + (specified_width style).to_px

/-- Lines 115-175 of `calculate_block_width`: resolve the used values of
`width`, `margin-left` and `margin-right` against the containing block width.
`ml1`/`mr1` are the margins after the overconstrained check of lines 134-142;
the nested conditionals reproduce, arm for arm, the disjoint cases of the
`match` on `(width == auto, margin_left == auto, margin_right == auto)` of
lines 148-175. -/
def resolve_width_values (style : StyledNode) (cb_width : ℚ) : Value × Value × Value :=
  let width := specified_width style
  let ml := style.lookup "margin-left" "margin" zeroLen
  let mr := style.lookup "margin-right" "margin" zeroLen
  let total := width_total style
  let ml1 := if width ≠ auto ∧ total > cb_width ∧ ml = auto then zeroLen else ml
  let mr1 := if width ≠ auto ∧ total > cb_width ∧ mr = auto then zeroLen else mr
  let underflow := cb_width - total
  if width = auto then
    -- `(true, _, _)`: any auto margin becomes 0 and width absorbs the underflow.
    (Value.length underflow,
      if ml1 = auto then zeroLen else ml1,
      if mr1 = auto then zeroLen else mr1)
  else if ml1 = auto then
    if mr1 = auto then
      -- `(false, true, true)`: both margins share the underflow evenly.
      (width, Value.length (underflow / 2), Value.length (underflow / 2))
    else
      -- `(false, true, false)`: margin-left takes the underflow.
      (width, Value.length underflow, mr1)
  else if mr1 = auto then
    -- `(false, false, true)`: margin-right takes the underflow.
    (width, ml1, Value.length underflow)
  else
    -- `(false, false, false)`: overconstrained, margin-right absorbs the underflow.
    (width, ml1, Value.length (mr1.to_px + underflow))

/-- `calculate_block_width` (lines 112-190): resolve the horizontal values and
write them, plus the content-area `x`, into the dimensions.  The value
resolution of lines 115-175 is factored into `resolve_width_values`; the
remainder is the assignment block of lines 177-189. -/
def calculate_block_width (style : StyledNode) (d containing_block : Dimensions) : Dimensions :=
  let resolved := resolve_width_values style containing_block.width
  let border_left := style.lookup "border-left-width" "border-width" zeroLen
  let border_right := style.lookup "border-right-width" "border-width" zeroLen
  let padding_left := style.lookup "padding-left" "padding" zeroLen
  let padding_right := style.lookup "padding-right" "padding" zeroLen
  { d with
    width := resolved.1.to_px
    padding := { d.padding with left := padding_left.to_px, right := padding_right.to_px }
    border := { d.border with left := border_left.to_px, right := border_right.to_px }
    margin := { d.margin with left := resolved.2.1.to_px, right := resolved.2.2.to_px }
    x := containing_block.x + resolved.2.1.to_px + border_left.to_px + padding_left.to_px }

/-- Lines 197-213 of `layout_block_content`: resolve the vertical edges (an
auto vertical margin resolves to 0 through `to_px`) and the content-area `y`. -/
def layout_block_content_edges (style : StyledNode) (d containing_block : Dimensions) : Dimensions :=
  { d with
    margin := { d.margin with
      top := (style.lookup "margin-top" "margin" zeroLen).to_px
      bottom := (style.lookup "margin-bottom" "margin" zeroLen).to_px }
    border := { d.border with
      top := (style.lookup "border-top-width" "border-width" zeroLen).to_px
      bottom := (style.lookup "border-bottom-width" "border-width" zeroLen).to_px }
    padding := { d.padding with
      top := (style.lookup "padding-top" "padding" zeroLen).to_px
      bottom := (style.lookup "padding-bottom" "padding" zeroLen).to_px }
    y := containing_block.y
          + (style.lookup "margin-top" "margin" zeroLen).to_px
          + (style.lookup "border-top-width" "border-width" zeroLen).to_px
          + (style.lookup "padding-top" "padding" zeroLen).to_px }

/-- `calculate_block_height` (lines 229-235): an explicit pixel `height`
overrides the accumulated content height, anything else leaves it alone. -/
def calculate_block_height (style : StyledNode) (d : Dimensions) : Dimensions :=
  match style.value "height" with
  | some (Value.length h) => { d with height := h }
  | _ => d

/-- Line 221: overwrite the content-area `y` of a laid-out child. -/
def LayoutBox.set_y (b : LayoutBox) (y : ℚ) : LayoutBox :=
  LayoutBox.mk b.box_type { b.dimensions with y := y } b.children

mutual

/-- `LayoutBox::layout` (lines 88-93) together with `layout_block`
(lines 96-107): only block boxes are laid out; the three steps are the width
pass, the content pass (edges, then the child loop through `layout_children`),
and the height pass. -/
def layout : LayoutBox → Dimensions → LayoutBox
  | LayoutBox.mk (BoxType.blockNode style) dims cs, containing_block =>
      let d1 := calculate_block_width style dims containing_block
      let d2 := layout_block_content_edges style d1 containing_block
      let res := layout_children cs d2 0
      LayoutBox.mk (BoxType.blockNode style)
        (calculate_block_height style { d2 with height := res.2 }) res.1
  | LayoutBox.mk (BoxType.inlineNode style) dims cs, _ =>
      LayoutBox.mk (BoxType.inlineNode style) dims cs
  | LayoutBox.mk BoxType.inlineContainer dims cs, _ =>
      LayoutBox.mk BoxType.inlineContainer dims cs

/-- The child loop of `layout_block_content` (lines 216-223): lay each child
out against the current self dimensions `d` (whose `height` field is still the
pre-loop value), overwrite its `y` with `d.y` plus the running content height,
and advance the running content height by its margin-box height.  Returns the
laid-out children and the final content height. -/
def layout_children : List LayoutBox → Dimensions → ℚ → List LayoutBox × ℚ
  | [], _, content_height => ([], content_height)
  | child :: rest, d, content_height =>
      let c2 := (layout child d).set_y (d.y + content_height)
      let res := layout_children rest d (content_height + c2.dimensions.margin_box_height)
      (c2 :: res.1, res.2)

end

/-- `layout_tree` (lines 62-66): build the box tree, then lay the root out
against the containing block. -/
def layout_tree (node : StyledNode) (containing_block : Dimensions) : Option LayoutBox :=
  (build_layout_tree node).map (fun root => layout root containing_block)

/-- The sibling-stacking property of section 4.3: the first child content `y`
is the parent content `y`, and each following child content `y` is the
previous child content `y` plus its margin-box height. -/
def siblings_stacked (b : LayoutBox) : Prop :=
  (∀ (_h : 0 < b.children.length), (b.children[0]).dimensions.y = b.dimensions.y)
  ∧ ∀ (i : ℕ) (_h : i + 1 < b.children.length),
      (b.children[i + 1]).dimensions.y
        = (b.children[i]).dimensions.y + (b.children[i]).dimensions.margin_box_height

/-! Concrete inputs used by witnesses and counterexamples. -/

/-- A styled node with no properties: width defaults to `auto`. -/
def exc1_node : StyledNode := StyledNode.mk [] Display.block []

/-- A viewport-like containing block of width 800. -/
def exc1_cb : Dimensions := { Dimensions.default with width := 800 }

/-- A fixed-width node whose seven horizontal values sum to 200. -/
def exc2_node : StyledNode :=
  StyledNode.mk
    [("width", Value.length 200), ("margin-left", Value.keyword "auto"),
     ("margin-right", Value.keyword "auto")] Display.block []

/-- A containing block of width 100, narrower than the 200 of `exc2_node`. -/
def exc2_cb : Dimensions := { Dimensions.default with width := 100 }

/-- The even-split scenario: fixed width 100, both margins auto. -/
def exc6_node : StyledNode :=
  StyledNode.mk
    [("width", Value.length 100), ("margin-left", Value.keyword "auto"),
     ("margin-right", Value.keyword "auto")] Display.block []

/-- A containing block of width 800 for the even-split scenario. -/
def exc6_cb : Dimensions := { Dimensions.default with width := 800 }

/-- An overconstrained node with both margins auto: fixed width 200 against a
containing block of width 100. -/
def exc6_over_node : StyledNode :=
  StyledNode.mk
    [("width", Value.length 200), ("margin-left", Value.keyword "auto"),
     ("margin-right", Value.keyword "auto")] Display.block []

/-- The containing block of width 100 for the overconstrained even-split
counterexample. -/
def exc6_over_cb : Dimensions := { Dimensions.default with width := 100 }

/-- A block root whose only child has display inline. -/
def exc3_node : StyledNode :=
  StyledNode.mk [] Display.block [StyledNode.mk [] Display.inline []]

/-- A block root with an inline child followed by a display-none child. -/
def exc7_node : StyledNode :=
  StyledNode.mk []
    Display.block [StyledNode.mk [] Display.inline [], StyledNode.mk [] Display.none []]

/-- A parent block with two childless block children, the first with explicit
height 50. -/
def exc4_node : StyledNode :=
  StyledNode.mk [] Display.block
    [StyledNode.mk [("height", Value.length 50)] Display.block [],
     StyledNode.mk [] Display.block []]

/-- The layout box built for `exc4_node` (two block children). -/
def exc4_box : LayoutBox :=
  LayoutBox.mk (BoxType.blockNode exc4_node) Dimensions.default
    [LayoutBox.new (BoxType.blockNode (StyledNode.mk [("height", Value.length 50)] Display.block [])),
     LayoutBox.new (BoxType.blockNode (StyledNode.mk [] Display.block []))]

/-- A containing block of width 400 for the stacking witness. -/
def exc4_cb : Dimensions := { Dimensions.default with width := 400 }

/-- A containing block of width 800 for the height witnesses. -/
def exc5_cb : Dimensions := { Dimensions.default with width := 800 }

/-- A node with an explicit pixel height of 50. -/
def exc5_node : StyledNode := StyledNode.mk [("height", Value.length 50)] Display.block []

/-- A node with no height property. -/
def exc5_auto_node : StyledNode := StyledNode.mk [] Display.block []

/-- A childless block child whose style gives it height 20. -/
def exc5_child : LayoutBox :=
  LayoutBox.new (BoxType.blockNode (StyledNode.mk [("height", Value.length 20)] Display.block []))

end Robinson

namespace Robinson

/-! Section: Projection reduction lemmas -/

@[simp] theorem styled_specified_values_mk (sv : List (String × Value)) (dp : Display)
    (cs : List StyledNode) : (StyledNode.mk sv dp cs).specified_values = sv := rfl

@[simp] theorem styled_display_mk (sv : List (String × Value)) (dp : Display)
    (cs : List StyledNode) : (StyledNode.mk sv dp cs).display = dp := rfl

@[simp] theorem styled_children_mk (sv : List (String × Value)) (dp : Display)
    (cs : List StyledNode) : (StyledNode.mk sv dp cs).children = cs := rfl

@[simp] theorem box_box_type_mk (bt : BoxType) (d : Dimensions) (cs : List LayoutBox) :
    (LayoutBox.mk bt d cs).box_type = bt := rfl

@[simp] theorem box_dimensions_mk (bt : BoxType) (d : Dimensions) (cs : List LayoutBox) :
    (LayoutBox.mk bt d cs).dimensions = d := rfl

@[simp] theorem box_children_mk (bt : BoxType) (d : Dimensions) (cs : List LayoutBox) :
    (LayoutBox.mk bt d cs).children = cs := rfl

/-! Section: Helper lemmas about width resolution -/

/-- The resolved `width`, `margin-left`, `margin-right` always gain exactly the
underflow over their specified pixel values: the sum of their used values
equals the specified sum plus `containing_width - total`. -/
theorem resolve_width_values_sum (style : StyledNode) (cbw : ℚ) :
    (resolve_width_values style cbw).1.to_px
      + (resolve_width_values style cbw).2.1.to_px
      + (resolve_width_values style cbw).2.2.to_px
      = (specified_width style).to_px
        + (style.lookup "margin-left" "margin" zeroLen).to_px
        + (style.lookup "margin-right" "margin" zeroLen).to_px
        + (cbw - width_total style) := by
  simp only [resolve_width_values]
  split_ifs <;> simp_all [auto, zeroLen, Value.to_px] <;> ring

/-! Section: C1 -/

/-- C1: for every block box laid out by `calculate_block_width` against a
containing block, the resolved `width` plus the horizontal margins, borders
and paddings equals the containing block width, both when the specified width
was `auto` and when it was not `auto` and the system was not overconstrained
(the specified total does not exceed the containing block width). -/
theorem c1_block_width_sum (style : StyledNode) (d containing_block : Dimensions)
    (_hcase : specified_width style = auto ∨
      (specified_width style ≠ auto ∧ width_total style ≤ containing_block.width)) :
    (calculate_block_width style d containing_block).width
      + (calculate_block_width style d containing_block).margin.left
      + (calculate_block_width style d containing_block).margin.right
      + (calculate_block_width style d containing_block).border.left
      + (calculate_block_width style d containing_block).border.right
      + (calculate_block_width style d containing_block).padding.left
      + (calculate_block_width style d containing_block).padding.right
      = containing_block.width := by
  have hs := resolve_width_values_sum style containing_block.width
  simp only [width_total] at hs
  simp only [calculate_block_width]
  linarith [hs]

/-- Witness for C1: a node with default (auto) width against a containing
block of width 800 resolves to a sum of exactly 800. -/
theorem c1_block_width_sum_witness :
    (specified_width exc1_node = auto ∨
      (specified_width exc1_node ≠ auto ∧ width_total exc1_node ≤ exc1_cb.width))
    ∧ (calculate_block_width exc1_node Dimensions.default exc1_cb).width
        + (calculate_block_width exc1_node Dimensions.default exc1_cb).margin.left
        + (calculate_block_width exc1_node Dimensions.default exc1_cb).margin.right
        + (calculate_block_width exc1_node Dimensions.default exc1_cb).border.left
        + (calculate_block_width exc1_node Dimensions.default exc1_cb).border.right
        + (calculate_block_width exc1_node Dimensions.default exc1_cb).padding.left
        + (calculate_block_width exc1_node Dimensions.default exc1_cb).padding.right
        = exc1_cb.width :=
  ⟨Or.inl rfl, c1_block_width_sum exc1_node Dimensions.default exc1_cb (Or.inl rfl)⟩

/-! Section: C2 -/

/-- C2: when the specified width is not `auto` and the specified total exceeds
the containing block width, every `auto` margin is forced to 0, after which
none of the three quantities is `auto` and the whole underflow
(`containing_block.width - total`, negative here) is added to `margin-right`,
with no clamping of negative results. -/
theorem c2_overconstrained_margin_right (style : StyledNode) (d containing_block : Dimensions)
    (hw : specified_width style ≠ auto)
    (hover : width_total style > containing_block.width) :
    (calculate_block_width style d containing_block).margin.left
        = (if style.lookup "margin-left" "margin" zeroLen = auto then 0
            else (style.lookup "margin-left" "margin" zeroLen).to_px)
    ∧ (calculate_block_width style d containing_block).margin.right
        = (if style.lookup "margin-right" "margin" zeroLen = auto then 0
            else (style.lookup "margin-right" "margin" zeroLen).to_px)
          + (containing_block.width - width_total style) := by
  simp only [calculate_block_width, resolve_width_values]
  split_ifs <;> simp_all [auto, zeroLen, Value.to_px]

/-- Witness for C2: fixed width 200 with both margins `auto` against a
containing block of width 100 forces both margins to 0 and then resolves
`margin-right` to the negative underflow, left at -100 unclamped. -/
theorem c2_overconstrained_margin_right_witness :
    specified_width exc2_node ≠ auto
    ∧ width_total exc2_node > exc2_cb.width
    ∧ (calculate_block_width exc2_node Dimensions.default exc2_cb).margin.left = 0
    ∧ (calculate_block_width exc2_node Dimensions.default exc2_cb).margin.right = -100 := by
  have hw : specified_width exc2_node ≠ auto := by
    simp [specified_width, StyledNode.value, find_value, exc2_node, auto]
  have hover : width_total exc2_node > exc2_cb.width := by
    simp [width_total, specified_width, StyledNode.value, StyledNode.lookup, find_value,
      exc2_node, exc2_cb, Dimensions.default, auto, zeroLen, Value.to_px]
    norm_num
  have h := c2_overconstrained_margin_right exc2_node Dimensions.default exc2_cb hw hover
  refine ⟨hw, hover, ?_, ?_⟩
  · rw [h.1]
    simp [StyledNode.lookup, StyledNode.value, find_value, exc2_node, auto, zeroLen]
  · rw [h.2]
    simp [StyledNode.lookup, StyledNode.value, find_value, exc2_node, auto, zeroLen,
      width_total, specified_width, Value.to_px, exc2_cb, Dimensions.default]
    norm_num

/-! Section: C6 -/

/-- Counterexample to C6 as stated: with fixed width 200 and both margins
`auto` against a containing block of width 100 (overconstrained), the resolved
margins are 0 and -100, not an even split. -/
theorem c6_counterexample :
    specified_width exc6_over_node ≠ auto
    ∧ exc6_over_node.lookup "margin-left" "margin" zeroLen = auto
    ∧ exc6_over_node.lookup "margin-right" "margin" zeroLen = auto
    ∧ ¬ ((calculate_block_width exc6_over_node Dimensions.default exc6_over_cb).margin.left
          = (calculate_block_width exc6_over_node Dimensions.default exc6_over_cb).margin.right) := by
  refine ⟨?_, ?_, ?_, ?_⟩
  · simp [specified_width, StyledNode.value, find_value, exc6_over_node, auto]
  · simp [StyledNode.lookup, StyledNode.value, find_value, exc6_over_node, auto]
  · simp [StyledNode.lookup, StyledNode.value, find_value, exc6_over_node, auto]
  · simp [calculate_block_width, resolve_width_values, specified_width, width_total,
      StyledNode.lookup, StyledNode.value, find_value, exc6_over_node, exc6_over_cb,
      Dimensions.default, EdgeSizes.default, auto, zeroLen, Value.to_px]
    norm_num

/-- C6 as amended: when the specified width is not `auto`, both specified
margins are `auto`, and the system is not overconstrained (the specified total
does not exceed the containing block width), the resolved margins are equal,
each receiving half the underflow. -/
theorem c6_auto_margins_even_split (style : StyledNode) (d containing_block : Dimensions)
    (hw : specified_width style ≠ auto)
    (hml : style.lookup "margin-left" "margin" zeroLen = auto)
    (hmr : style.lookup "margin-right" "margin" zeroLen = auto)
    (hnc : width_total style ≤ containing_block.width) :
    (calculate_block_width style d containing_block).margin.left
        = (containing_block.width - width_total style) / 2
    ∧ (calculate_block_width style d containing_block).margin.right
        = (containing_block.width - width_total style) / 2 := by
  have hnotover : ¬ width_total style > containing_block.width := not_lt.mpr hnc
  simp only [calculate_block_width, resolve_width_values]
  split_ifs <;> simp_all [auto, zeroLen, Value.to_px]

/-- Witness for C6 as amended: fixed width 100 with both margins `auto`
against a containing block of width 800 resolves both margins to 350. -/
theorem c6_auto_margins_even_split_witness :
    specified_width exc6_node ≠ auto
    ∧ exc6_node.lookup "margin-left" "margin" zeroLen = auto
    ∧ exc6_node.lookup "margin-right" "margin" zeroLen = auto
    ∧ width_total exc6_node ≤ exc6_cb.width
    ∧ (calculate_block_width exc6_node Dimensions.default exc6_cb).margin.left = 350
    ∧ (calculate_block_width exc6_node Dimensions.default exc6_cb).margin.right = 350 := by
  have hw : specified_width exc6_node ≠ auto := by
    simp [specified_width, StyledNode.value, find_value, exc6_node, auto]
  have hml : exc6_node.lookup "margin-left" "margin" zeroLen = auto := by
    simp [StyledNode.lookup, StyledNode.value, find_value, exc6_node, auto]
  have hmr : exc6_node.lookup "margin-right" "margin" zeroLen = auto := by
    simp [StyledNode.lookup, StyledNode.value, find_value, exc6_node, auto]
  have hnc : width_total exc6_node ≤ exc6_cb.width := by
    simp [width_total, specified_width, StyledNode.lookup, StyledNode.value, find_value,
      exc6_node, exc6_cb, Dimensions.default, auto, zeroLen, Value.to_px]
    norm_num
  have h := c6_auto_margins_even_split exc6_node Dimensions.default exc6_cb hw hml hmr hnc
  refine ⟨hw, hml, hmr, hnc, ?_, ?_⟩
  · rw [h.1]
    simp [width_total, specified_width, StyledNode.lookup, StyledNode.value, find_value,
      exc6_node, exc6_cb, Dimensions.default, auto, zeroLen, Value.to_px]
    norm_num
  · rw [h.2]
    simp [width_total, specified_width, StyledNode.lookup, StyledNode.value, find_value,
      exc6_node, exc6_cb, Dimensions.default, auto, zeroLen, Value.to_px]
    norm_num

/-! Section: Helper lemmas about the layout tree builder -/

/-- The child loop of the builder appends exactly the boxes built from the
block-display children, in source order: inline and display-none children
contribute nothing, and the box type and dimensions of the root are kept. -/
theorem build_children_mk (cs : List StyledNode) (bt : BoxType) (bd : Dimensions)
    (bcs : List LayoutBox) :
    build_children cs (LayoutBox.mk bt bd bcs)
      = LayoutBox.mk bt bd
          (bcs ++ (cs.filter (fun c => match c.display with | Display.block => true | _ => false)).map
            (fun c => build_non_none c (BoxType.blockNode c))) := by
  induction cs generalizing bcs with
  | nil => simp [build_children]
  | cons c rest ih =>
    rcases c with ⟨cprops, cdisp, ccs⟩
    cases cdisp <;>
      simp [build_children, ih, LayoutBox.push_block, LayoutBox.push_inline,
        List.filter_cons]

/-! Section: C3 -/

/-- Counterexample to C3 as stated: a block root with a single inline child
builds a box with no children at all, so the inline child is not present in
the layout box tree. -/
theorem c3_counterexample :
    exc3_node.children.map StyledNode.display = [Display.inline]
    ∧ (build_layout_tree exc3_node).map (fun b => b.children.length) = some 0 :=
  ⟨rfl, by decide⟩

/-- C3 as amended: a child whose display is inline is built and then discarded
by the no-op `push_inline`, so building continues exactly as if the inline
child were absent; inline children never appear in the built layout box tree. -/
theorem c3_inline_child_discarded (props : List (String × Value))
    (ics rest : List StyledNode) (root : LayoutBox) :
    build_children (StyledNode.mk props Display.inline ics :: rest) root
      = build_children rest root := by
  simp [build_children, LayoutBox.push_inline]

/-! Section: C7 -/

/-- Counterexample to C7 as stated: a block root with two styled children, an
inline one followed by a display-none one, builds a box with zero children,
not the one child the claim predicts. -/
theorem c7_counterexample :
    exc7_node.children.length = 2
    ∧ exc7_node.children.map StyledNode.display = [Display.inline, Display.none]
    ∧ (build_layout_tree exc7_node).map (fun b => b.children.length) = some 0 :=
  ⟨rfl, rfl, by decide⟩

/-- C7 as amended: display-none children are entirely absent from the built
children, and the built children are exactly the boxes of the block-display
children in source order; inline children are dropped as well (no-op
`push_inline`), so removing a display-none child leaves one fewer child only
among otherwise block siblings. -/
theorem c7_none_children_absent (props : List (String × Value)) (cs : List StyledNode) :
    ((build_layout_tree (StyledNode.mk props Display.block cs)).map LayoutBox.children
      = some ((cs.filter (fun c => match c.display with | Display.block => true | _ => false)).map
          (fun c => build_non_none c (BoxType.blockNode c))))
    ∧ ((build_layout_tree (StyledNode.mk props Display.inline cs)).map LayoutBox.children
      = some ((cs.filter (fun c => match c.display with | Display.block => true | _ => false)).map
          (fun c => build_non_none c (BoxType.blockNode c)))) := by
  constructor <;>
    simp [build_layout_tree, build_non_none, LayoutBox.new, build_children_mk]

/-! Section: C8 -/

/-- C8: building a layout tree from a root styled node whose display is none
fails (the `fail!` is modelled as `Option.none`) rather than returning any
box. -/
theorem c8_root_display_none_fails (props : List (String × Value)) (cs : List StyledNode) :
    build_layout_tree (StyledNode.mk props Display.none cs) = Option.none :=
  rfl

/-! Section: C9 -/

/-- C9: querying the style of a box whose type is the synthetic
`InlineContainer` fails (the `fail!` is modelled as `Option.none`), while the
`Block` and `Inline` variants report their styled node. -/
theorem c9_inline_container_has_no_style (d : Dimensions) (cs : List LayoutBox) (s : StyledNode) :
    (LayoutBox.mk BoxType.inlineContainer d cs).style = Option.none
    ∧ (LayoutBox.mk (BoxType.blockNode s) d cs).style = some s
    ∧ (LayoutBox.mk (BoxType.inlineNode s) d cs).style = some s :=
  ⟨rfl, rfl, rfl⟩

/-! Section: Helper lemmas about the child layout loop -/

/-- Unfolding of a block-box layout into its three passes. -/
theorem layout_block_eq (style : StyledNode) (dims : Dimensions) (cs : List LayoutBox)
    (cb : Dimensions) :
    layout (LayoutBox.mk (BoxType.blockNode style) dims cs) cb
      = LayoutBox.mk (BoxType.blockNode style)
          (calculate_block_height style
            { layout_block_content_edges style (calculate_block_width style dims cb) cb with
              height :=
                (layout_children cs
                  (layout_block_content_edges style (calculate_block_width style dims cb) cb)
                  0).2 })
          ((layout_children cs
            (layout_block_content_edges style (calculate_block_width style dims cb) cb) 0).1) := by
  simp only [layout]

/-- The child loop preserves the number of children. -/
theorem layout_children_length (cs : List LayoutBox) (d : Dimensions) (ch : ℚ) :
    (layout_children cs d ch).1.length = cs.length := by
  induction cs generalizing ch with
  | nil => simp [layout_children]
  | cons c rest ih => simp [layout_children, ih]

/-- Every child produced by the child loop sits at the containing content `y`
plus the accumulator plus the margin-box heights of the children before it. -/
theorem layout_children_y (cs : List LayoutBox) (d : Dimensions) (ch : ℚ) (i : ℕ)
    (h : i < (layout_children cs d ch).1.length) :
    ((layout_children cs d ch).1[i]).dimensions.y
      = d.y + ch
        + (((layout_children cs d ch).1.map (fun b => b.dimensions.margin_box_height)).take i).sum := by
  induction cs generalizing ch i with
  | nil => simp [layout_children] at h
  | cons c rest ih =>
    cases i with
    | zero => simp [layout_children, LayoutBox.set_y]
    | succ j =>
      have hj : j < (layout_children rest d
          (ch + (((layout c d).set_y (d.y + ch)).dimensions).margin_box_height)).1.length := by
        have := layout_children_length rest d
          (ch + (((layout c d).set_y (d.y + ch)).dimensions).margin_box_height)
        have hlen := layout_children_length (c :: rest) d ch
        simp only [layout_children] at h
        simpa using Nat.lt_of_succ_lt_succ (by simpa using h)
      have hih := ih (ch + (((layout c d).set_y (d.y + ch)).dimensions).margin_box_height) j hj
      simp only [layout_children, List.getElem_cons_succ, List.map_cons, List.take_succ_cons,
        List.sum_cons]
      rw [hih]
      ring

/-- The accumulated content height returned by the child loop is the initial
accumulator plus the sum of the margin-box heights of the laid-out children. -/
theorem layout_children_total (cs : List LayoutBox) (d : Dimensions) (ch : ℚ) :
    (layout_children cs d ch).2
      = ch + ((layout_children cs d ch).1.map (fun b => b.dimensions.margin_box_height)).sum := by
  induction cs generalizing ch with
  | nil => simp [layout_children]
  | cons c rest ih =>
    simp [layout_children, ih]
    ring

/-- `calculate_block_height` only ever touches the `height` field. -/
theorem calculate_block_height_y (style : StyledNode) (d : Dimensions) :
    (calculate_block_height style d).y = d.y := by
  unfold calculate_block_height
  split <;> rfl

/-- `calculate_block_height` with an explicit pixel height overwrites the
content height with it. -/
theorem calculate_block_height_of_px (style : StyledNode) (d : Dimensions) (h : ℚ)
    (hv : style.value "height" = some (Value.length h)) :
    calculate_block_height style d = { d with height := h } := by
  unfold calculate_block_height
  rw [hv]

/-- `calculate_block_height` without an explicit pixel height leaves the
dimensions unchanged. -/
theorem calculate_block_height_no_px (style : StyledNode) (d : Dimensions)
    (hv : ∀ h : ℚ, style.value "height" ≠ some (Value.length h)) :
    calculate_block_height style d = d := by
  unfold calculate_block_height
  rcases hval : style.value "height" with _ | v
  · rfl
  · cases v with
    | keyword k => rfl
    | length q => exact absurd hval (hv q)

/-! Section: C4 -/

/-- C4: after a block box lays out its children, the first child content `y`
equals the parent content `y` and each later child content `y` equals the
previous child content `y` plus that child margin-box height, whatever the
recursive layout of each child computed for `y`. -/
theorem c4_sibling_stacking (style : StyledNode) (dims : Dimensions) (cs : List LayoutBox)
    (cb : Dimensions) :
    siblings_stacked (layout (LayoutBox.mk (BoxType.blockNode style) dims cs) cb) := by
  rw [layout_block_eq]
  refine ⟨?_, ?_⟩
  · intro h0
    simp only [box_children_mk] at h0 ⊢
    simp only [box_dimensions_mk]
    rw [layout_children_y _ _ _ 0 h0, calculate_block_height_y]
    simp
  · intro i h
    simp only [box_children_mk] at h ⊢
    have hi : i < (layout_children cs
        (layout_block_content_edges style (calculate_block_width style dims cb) cb) 0).1.length :=
      Nat.lt_of_succ_lt h
    rw [layout_children_y _ _ _ (i + 1) h, layout_children_y _ _ _ i hi,
      List.sum_take_succ _ i (by simpa using hi)]
    simp
    ring

/-- Witness for C4: a parent with two block children satisfies the stacking
property, with a non-vacuous (length two) children list. -/
theorem c4_sibling_stacking_witness :
    siblings_stacked (layout exc4_box exc4_cb)
    ∧ (layout exc4_box exc4_cb).children.length = 2 := by
  constructor
  · exact c4_sibling_stacking exc4_node Dimensions.default
      [LayoutBox.new (BoxType.blockNode (StyledNode.mk [("height", Value.length 50)] Display.block [])),
       LayoutBox.new (BoxType.blockNode (StyledNode.mk [] Display.block []))] exc4_cb
  · simp [exc4_box, layout_block_eq, layout_children_length]

/-! Section: C5 -/

/-- C5: after block layout, a box whose style specifies an explicit pixel
height has exactly that height, and a box with no explicit pixel height has
height exactly the sum of the margin-box heights of its laid-out children
(0 when there are none). -/
theorem c5_block_height (style : StyledNode) (dims : Dimensions) (cs : List LayoutBox)
    (cb : Dimensions) :
    (∀ h : ℚ, style.value "height" = some (Value.length h) →
      (layout (LayoutBox.mk (BoxType.blockNode style) dims cs) cb).dimensions.height = h)
    ∧ ((∀ h : ℚ, style.value "height" ≠ some (Value.length h)) →
      (layout (LayoutBox.mk (BoxType.blockNode style) dims cs) cb).dimensions.height
        = ((layout (LayoutBox.mk (BoxType.blockNode style) dims cs) cb).children.map
            (fun c => c.dimensions.margin_box_height)).sum) := by
  rw [layout_block_eq]
  constructor
  · intro h hv
    rw [calculate_block_height_of_px style _ h hv]
    simp
  · intro hv
    rw [calculate_block_height_no_px style _ hv]
    simp only [box_dimensions_mk, box_children_mk]
    rw [layout_children_total]
    simp

/-- Witness for C5: explicit height 50 wins over content height; with no
height property the height is the margin-box height sum of the children, here
a single child of height 20, and 0 with no children. -/
theorem c5_block_height_witness :
    (layout (LayoutBox.mk (BoxType.blockNode exc5_node) Dimensions.default []) exc5_cb).dimensions.height
        = 50
    ∧ (layout (LayoutBox.mk (BoxType.blockNode exc5_auto_node) Dimensions.default [exc5_child])
        exc5_cb).dimensions.height = 20
    ∧ (layout (LayoutBox.mk (BoxType.blockNode exc5_auto_node) Dimensions.default [])
        exc5_cb).dimensions.height = 0 := by
  refine ⟨?_, ?_, ?_⟩
  · exact (c5_block_height exc5_node Dimensions.default [] exc5_cb).1 50
      (by simp [exc5_node, StyledNode.value, find_value])
  · have h := (c5_block_height exc5_auto_node Dimensions.default [exc5_child] exc5_cb).2
      (by intro q; simp [exc5_auto_node, StyledNode.value, find_value])
    rw [h]
    simp [layout_block_eq, layout_children, exc5_child, LayoutBox.new, LayoutBox.set_y,
      calculate_block_width, resolve_width_values, layout_block_content_edges,
      calculate_block_height, specified_width, width_total, StyledNode.value, StyledNode.lookup,
      find_value, exc5_auto_node, exc5_cb, Dimensions.default, EdgeSizes.default, auto, zeroLen,
      Value.to_px, Dimensions.margin_box_height]
  · have h := (c5_block_height exc5_auto_node Dimensions.default [] exc5_cb).2
      (by intro q; simp [exc5_auto_node, StyledNode.value, find_value])
    rw [h]
    simp [layout_block_eq, layout_children]

/-! Section: C10 -/

/-- The width pass reads only `width` and `x` of the containing block, so its
height is irrelevant to it. -/
theorem calculate_block_width_cb_height (style : StyledNode) (d cb : Dimensions) (hh : ℚ) :
    calculate_block_width style d { cb with height := hh } = calculate_block_width style d cb :=
  rfl

/-- A single box laid out against containing blocks differing only in height
produces the same result. -/
theorem layout_cb_height (b : LayoutBox) (cb : Dimensions) (hh : ℚ) :
    layout b { cb with height := hh } = layout b cb := by
  rcases b with ⟨bt, dims, cs⟩
  cases bt <;> rfl

/-- C10: the layout result is independent of the containing block height -
`layout_tree` gives identical output trees for containing blocks that differ
only in their `height` field. -/
theorem c10_ignores_containing_height (node : StyledNode) (cb : Dimensions) (hh : ℚ) :
    layout_tree node { cb with height := hh } = layout_tree node cb := by
  unfold layout_tree
  rcases build_layout_tree node with _ | b
  · rfl
  · simp [layout_cb_height]

end Robinson
